import Mathlib

/-!
Shallow embedding of the `avs` media-manager subsystem.

The definitions below are translated from:
  * `src/src/mediamgr/mediamgr.c` — the audio routing state machine
    (`update_route`), the sound registry helpers
    (`mediamgr_can_play_sound`, `check_play_mode`, `stop_play`,
    `stop_playing_during_call`) and the audio-thread message handler
    (`mqueue_handler`);
  * `src/unnamed/part_000` — the `media_pt` payload-type enumeration of the
    mediaflow header;
  * `src/src/audio_io/fake_audiodevice.cpp` — the record/playout loop bodies
    of the fake audio device.

Platform calls (`mm_platform_*`) are external to the repository; they are
modelled as an oracle (`Platform`) plus an explicit action trace
(`PAction`), so that theorems can speak about which platform calls were
made and in which order.
-/

namespace Avs

/-- `enum mediamgr_auplay` — the audio playback routes. -/
inductive Auplay
  | earpiece
  | speaker
  | headset
  | bt
  | lineout
  | spdif
  | unknown
deriving DecidableEq, Repr

/-- `enum mediamgr_state` — the call states handled by `mqueue_handler`
(MEDIAMGR_STATE_NORMAL, _INCALL, _INVIDEOCALL, _HOLD, _RESUME). -/
inductive MMState
  | normal
  | incall
  | invideocall
  | hold
  | resume
deriving DecidableEq, Repr

/-- `mm_route_update_event` — events driving `update_route`. -/
inductive RouteEvent
  | headset_plugged
  | headset_unplugged
  | bt_device_connected
  | bt_device_disconnected
  | speaker_enable_request
  | speaker_disable_request
  | call_start
  | call_stop
  | video_call_start
  | video_call_stop
deriving DecidableEq, Repr

/-- `struct mm_route_state_machine`. -/
structure RouterSM where
  prefer_loudspeaker : Bool
  bt_device_is_connected : Bool
  wired_hs_is_connected : Bool
  cur_route : Auplay
  route_before_call : Auplay
deriving DecidableEq, Repr

/-- The in-call test `call_state == MEDIAMGR_STATE_INCALL ||
call_state == MEDIAMGR_STATE_INVIDEOCALL`, as used throughout
`mediamgr.c`. -/
def is_call_state (s : MMState) : Bool :=
  match s with
  | MMState.incall => true
  | MMState.invideocall => true
  | _ => false

/-- The event `switch` of `update_route` (mediamgr.c lines 229-334): given
the router state, the current call state and the route read from
`mm_platform_get_route()`, an event yields the updated router state and the
`wanted_route`.  The video-call-start branch keeps the source's double
assignment `prefer_loudspeaker = true; prefer_loudspeaker = false;`. -/
def route_decision (r : RouterSM) (call_state : MMState) (cur_route : Auplay)
    (ev : RouteEvent) : RouterSM × Auplay :=
  match ev with
  | RouteEvent.headset_plugged =>
      ({ r with wired_hs_is_connected := true, prefer_loudspeaker := false },
       Auplay.headset)
  | RouteEvent.headset_unplugged =>
      let r1 := if call_state = MMState.invideocall then
                  { r with prefer_loudspeaker := true } else r
      let w := if cur_route = Auplay.speaker then Auplay.speaker
               else if r1.bt_device_is_connected then Auplay.bt
               else if r1.prefer_loudspeaker then Auplay.speaker
               else Auplay.earpiece
      ({ r1 with wired_hs_is_connected := false }, w)
  | RouteEvent.bt_device_connected =>
      let w := if call_state = MMState.incall ∨ call_state = MMState.invideocall
               then Auplay.bt else cur_route
      ({ r with bt_device_is_connected := true }, w)
  | RouteEvent.bt_device_disconnected =>
      let w := if r.wired_hs_is_connected then Auplay.headset
               else if r.prefer_loudspeaker then Auplay.speaker
               else Auplay.earpiece
      ({ r with bt_device_is_connected := false }, w)
  | RouteEvent.speaker_enable_request =>
      ({ r with prefer_loudspeaker := true }, Auplay.speaker)
  | RouteEvent.speaker_disable_request =>
      let w := if r.wired_hs_is_connected then Auplay.headset
               else if r.bt_device_is_connected then Auplay.bt
               else Auplay.earpiece
      ({ r with prefer_loudspeaker := false }, w)
  | RouteEvent.call_start =>
      let r1 := { r with route_before_call := cur_route }
      let w := if r1.wired_hs_is_connected then Auplay.headset
               else if r1.bt_device_is_connected then Auplay.bt
               else if r1.prefer_loudspeaker then Auplay.speaker
               else Auplay.earpiece
      (r1, w)
  | RouteEvent.video_call_start =>
      let r1 := { r with route_before_call := cur_route }
      let w := if r1.wired_hs_is_connected then Auplay.headset
               else if r1.bt_device_is_connected then Auplay.bt
               else Auplay.speaker
      let r2 := { r1 with prefer_loudspeaker := true }
      let r3 := { r2 with prefer_loudspeaker := false }
      (r3, w)
  | RouteEvent.call_stop =>
      ({ r with prefer_loudspeaker := false }, Auplay.earpiece)
  | RouteEvent.video_call_stop =>
      ({ r with prefer_loudspeaker := false }, Auplay.earpiece)

/-- The routes for which `update_route` has a platform enable call
(headset, earpiece, speaker, bt); the remaining routes hit the
`default:` branch which only logs an error. -/
def route_supported (w : Auplay) : Bool :=
  match w with
  | Auplay.headset => true
  | Auplay.earpiece => true
  | Auplay.speaker => true
  | Auplay.bt => true
  | _ => false

/-- Visible platform calls made by the media-manager thread, recorded as a
trace so that theorems can state which external functions were invoked. -/
inductive PAction
  | enableRoute (w : Auplay)
  | warnRoute
  | routeChanged (r : Auplay)
  | playSound (n : String)
  | stopSound (n : String)
  | pauseSound (n : String)
  | enterCall
  | exitCall
  | mcatChanged (s : MMState)
deriving DecidableEq, Repr

/-- Oracle for the platform audio layer: the route reported by
`mm_platform_get_route()` on entry to `update_route`, the return code of
`mm_platform_enable_*` for a given wanted route, and the route that
`mm_platform_get_route()` observes after that enable call. -/
structure Platform where
  route : Auplay
  enableRet : Auplay → Int
  routeAfter : Auplay → Auplay

/-- Result of one `update_route` call. -/
structure RouteResult where
  router : RouterSM
  wanted : Auplay
  retCode : Int
  observedAfter : Auplay
  finalRoute : Auplay
  trace : List PAction
deriving Repr

/-- The guard `wanted_route != cur_route` of the enable `switch`, together
with landing in a supported (non-`default`) branch. -/
def enable_attempted (p : Platform) (wanted : Auplay) : Bool :=
  decide (wanted ≠ p.route) && route_supported wanted

/-- The value of `ret` after the enable `switch` (0 when no platform
enable was called). -/
def ur_ret (p : Platform) (wanted : Auplay) : Int :=
  if enable_attempted p wanted then p.enableRet wanted else 0

/-- The route observed by the second `mm_platform_get_route()` call. -/
def ur_obs (p : Platform) (wanted : Auplay) : Auplay :=
  if enable_attempted p wanted then p.routeAfter wanted else p.route

/-- The guard `wanted_route != cur_route && ret >= 0` of the verification
step. -/
def ur_mismatch (wanted cur2 : Auplay) (ret : Int) : Bool :=
  decide (wanted ≠ cur2) && decide (0 ≤ ret)

/-- `update_route` (mediamgr.c lines 222-381): compute the wanted route,
invoke the platform enable when it differs from the observed route,
re-read the platform route, optimistically adopt the wanted route when the
platform did not follow and no call is active (given a nonnegative enable
return), log a warning instead while in a call, and finally invoke the
registered route-changed handler with the resulting route. -/
def update_route (r : RouterSM) (call_state : MMState) (hasRouteHandler : Bool)
    (p : Platform) (ev : RouteEvent) : RouteResult :=
  let d := route_decision r call_state p.route ev
  let wanted := d.2
  let ret := ur_ret p wanted
  let cur2 := ur_obs p wanted
  let final :=
    if ur_mismatch wanted cur2 ret then
      (if is_call_state call_state then cur2 else wanted)
    else cur2
  { router := d.1
    wanted := wanted
    retCode := ret
    observedAfter := cur2
    finalRoute := final
    trace :=
      (if enable_attempted p wanted then [PAction.enableRoute wanted] else [])
      ++ (if ur_mismatch wanted cur2 ret && is_call_state call_state then
            [PAction.warnRoute] else [])
      ++ (if hasRouteHandler then [PAction.routeChanged final] else []) }

/-- `struct sound` fields used by the media manager (mm_platform.h is not
under src/; the fields are the ones read by `mediamgr.c`:
`mixing`, `incall`, `intensity`, `priority`, `is_call_media`). -/
structure Sound where
  mixing : Bool
  incall : Bool
  intensity : Int
  priority : Int
  is_call_media : Bool
deriving DecidableEq, Repr

/-- The sound registry `mm->sounds`, a dictionary from name to sound,
modelled as an association list in iteration order. -/
def SoundDict := List (String × Sound)

/-- `dict_lookup` on the sound registry. -/
def dict_lookup (d : List (String × Sound)) (k : String) : Option Sound :=
  match d with
  | [] => none
  | (n, s) :: rest => if n = k then some s else dict_lookup rest k

/-- Modelled from the spec: `mm_platform_registerMedia` (the platform files
are not under src/) adds an entry to the registry, the registry being a
mapping from unique name to SoundEntry. -/
def dict_insert (d : List (String × Sound)) (k : String) (s : Sound) :
    List (String × Sound) :=
  match d with
  | [] => [(k, s)]
  | (n, s0) :: rest =>
      if n = k then (k, s) :: rest else (n, s0) :: dict_insert rest k s

/-- Modelled from the spec: `mm_platform_unregisterMedia` removes the entry
with the given name from the registry. -/
def dict_remove (d : List (String × Sound)) (k : String) :
    List (String × Sound) :=
  match d with
  | [] => []
  | (n, s0) :: rest =>
      if n = k then rest else (n, s0) :: dict_remove rest k

/-- The mode accumulated by `check_play_mode` (`mm_playback_mode`). -/
inductive PlayMode
  | pm_none
  | pm_mixing
  | pm_exclusive
deriving DecidableEq, Repr

/-- `dict_apply(sounds, check_play_mode, &mode)`: walk the registry in
order; a playing mixing sound sets the mode to MIXING, a playing
non-mixing sound sets it to EXCLUSIVE and stops the iteration.
`mm_platform_is_sound_playing` is membership of the platform playing
set. -/
def check_play_mode (pl : List String) :
    List (String × Sound) → PlayMode → PlayMode
  | [], m => m
  | (n, s) :: rest, m =>
      if n ∈ pl then
        (if s.mixing then check_play_mode pl rest PlayMode.pm_mixing
         else PlayMode.pm_exclusive)
      else check_play_mode pl rest m

/-- `mediamgr_can_play_sound` (mediamgr.c lines 433-468). -/
def mediamgr_can_play_sound (call_state : MMState) (intensity_thres : Int)
    (sounds : List (String × Sound)) (pl : List String)
    (to_play : Sound) : Bool :=
  if intensity_thres < to_play.intensity then false
  else if to_play.incall = false && is_call_state call_state then false
  else if 0 < to_play.priority then true
  else
    match check_play_mode pl sounds PlayMode.pm_none with
    | PlayMode.pm_none => true
    | PlayMode.pm_exclusive => false
    | PlayMode.pm_mixing => to_play.mixing

/-- `dict_apply(sounds, stop_play, NULL)`: stop every registered sound the
platform reports as playing, returning the new playing set and the stop
calls made. -/
def stop_all_playing :
    List (String × Sound) → List String → List String × List PAction
  | [], pl => (pl, [])
  | (n, _) :: rest, pl =>
      if n ∈ pl then
        let res := stop_all_playing rest (pl.erase n)
        (res.1, PAction.stopSound n :: res.2)
      else stop_all_playing rest pl

/-- `dict_apply(sounds, stop_playing_during_call, NULL)`: stop every
playing registered sound whose `incall` flag is false. -/
def stop_noncall_playing :
    List (String × Sound) → List String → List String × List PAction
  | [], pl => (pl, [])
  | (n, s) :: rest, pl =>
      if s.incall = false && n ∈ pl then
        let res := stop_noncall_playing rest (pl.erase n)
        (res.1, PAction.stopSound n :: res.2)
      else stop_noncall_playing rest pl

/-- `mediamgr_enter_call`: stop the non-in-call playing sounds, then
`mm_platform_enter_call()`. -/
def mediamgr_enter_call (sounds : List (String × Sound)) (pl : List String) :
    List String × List PAction :=
  let res := stop_noncall_playing sounds pl
  (res.1, res.2 ++ [PAction.enterCall])

/-- `mm_platform_play_sound`: the sound becomes playing. -/
def platform_play (pl : List String) (n : String) : List String :=
  if n ∈ pl then pl else pl ++ [n]

/-- `struct mediamgr` — the fields of the manager state that the message
handler reads or writes (the route-changed handler pointer is kept as the
Boolean `hasRouteHandler`). -/
structure MM where
  sounds : List (String × Sound)
  prev_call_state : MMState
  call_state : MMState
  router : RouterSM
  intensity_thres : Int
  hasRouteHandler : Bool
deriving DecidableEq, Repr

/-- The messages of `mm_marshal_id` that carry work (EXIT only terminates
the loop). -/
inductive MMsg
  | play_media (name : String)
  | pause_media (name : String)
  | stop_media (name : String)
  | call_state (s : MMState)
  | enable_speaker (b : Bool)
  | headset_connected (b : Bool)
  | bt_device_connected (b : Bool)
  | register_media (name : String) (s : Sound)
  | deregister_media (name : String)
  | set_intensity (i : Int)
deriving DecidableEq, Repr

/-- Result of handling one message: the new manager state, the new platform
playing set, the platform calls made, and — when the message triggered
`update_route` — the route event with its wanted route. -/
structure StepResult where
  mm : MM
  playing : List String
  trace : List PAction
  upd : Option (RouteEvent × Auplay)
deriving Repr

/-- `mqueue_handler` (mediamgr.c lines 675-889), one message at a time. -/
def mqueue_step (st : MM) (pl : List String) (p : Platform) (msg : MMsg) :
    StepResult :=
  match msg with
  | MMsg.play_media name =>
      match dict_lookup st.sounds name with
      | none => ⟨st, pl, [], none⟩
      | some snd =>
          if mediamgr_can_play_sound st.call_state st.intensity_thres
              st.sounds pl snd then
            let stopres :=
              if 0 < snd.priority then stop_all_playing st.sounds pl
              else (pl, [])
            if snd.is_call_media && !(is_call_state st.call_state) then
              let u := update_route st.router st.call_state st.hasRouteHandler
                         p RouteEvent.call_start
              ⟨{ st with router := u.router }, platform_play stopres.1 name,
               stopres.2 ++ (PAction.enterCall :: u.trace)
                 ++ [PAction.playSound name],
               some (RouteEvent.call_start, u.wanted)⟩
            else
              ⟨st, platform_play stopres.1 name,
               stopres.2 ++ [PAction.playSound name], none⟩
          else ⟨st, pl, [], none⟩
  | MMsg.pause_media name =>
      match dict_lookup st.sounds name with
      | none => ⟨st, pl, [], none⟩
      | some _ => ⟨st, pl.erase name, [PAction.pauseSound name], none⟩
  | MMsg.stop_media name =>
      match dict_lookup st.sounds name with
      | none => ⟨st, pl, [], none⟩
      | some snd =>
          if snd.is_call_media && !(is_call_state st.call_state) then
            let u := update_route st.router st.call_state st.hasRouteHandler
                       p RouteEvent.call_stop
            ⟨{ st with router := u.router }, pl.erase name,
             PAction.stopSound name :: PAction.exitCall :: u.trace,
             some (RouteEvent.call_stop, u.wanted)⟩
          else
            ⟨st, pl.erase name, [PAction.stopSound name], none⟩
  | MMsg.call_state s =>
      match s with
      | MMState.incall =>
          let st1 := { st with call_state := MMState.incall }
          let ec := mediamgr_enter_call st1.sounds pl
          let u := update_route st1.router st1.call_state st1.hasRouteHandler
                     p RouteEvent.call_start
          ⟨{ st1 with router := u.router }, ec.1,
           ec.2 ++ u.trace ++ [PAction.mcatChanged MMState.incall],
           some (RouteEvent.call_start, u.wanted)⟩
      | MMState.invideocall =>
          let st1 := { st with call_state := MMState.invideocall }
          let ec := mediamgr_enter_call st1.sounds pl
          let u := update_route st1.router st1.call_state st1.hasRouteHandler
                     p RouteEvent.video_call_start
          ⟨{ st1 with router := u.router }, ec.1, ec.2 ++ u.trace,
           some (RouteEvent.video_call_start, u.wanted)⟩
      | MMState.normal =>
          let st1 := { st with call_state := MMState.normal }
          let u := update_route st1.router st1.call_state st1.hasRouteHandler
                     p RouteEvent.call_stop
          ⟨{ st1 with router := u.router }, pl,
           PAction.exitCall :: u.trace ++ [PAction.mcatChanged MMState.normal],
           some (RouteEvent.call_stop, u.wanted)⟩
      | MMState.hold =>
          if is_call_state st.call_state then
            let st1 := { st with prev_call_state := st.call_state,
                                 call_state := MMState.hold }
            let u := update_route st1.router st1.call_state
                       st1.hasRouteHandler p RouteEvent.call_stop
            ⟨{ st1 with router := u.router }, pl,
             u.trace ++ [PAction.mcatChanged MMState.hold],
             some (RouteEvent.call_stop, u.wanted)⟩
          else ⟨st, pl, [], none⟩
      | MMState.resume =>
          if st.call_state = MMState.hold then
            let st1 := { st with call_state := st.prev_call_state }
            let ec := mediamgr_enter_call st1.sounds pl
            let u := update_route st1.router st1.call_state
                       st1.hasRouteHandler p RouteEvent.call_start
            ⟨{ st1 with router := u.router }, ec.1,
             ec.2 ++ u.trace ++ [PAction.mcatChanged MMState.resume],
             some (RouteEvent.call_start, u.wanted)⟩
          else ⟨st, pl, [], none⟩
  | MMsg.enable_speaker b =>
      let ev := if b then RouteEvent.speaker_enable_request
                else RouteEvent.speaker_disable_request
      let u := update_route st.router st.call_state st.hasRouteHandler p ev
      ⟨{ st with router := u.router }, pl, u.trace, some (ev, u.wanted)⟩
  | MMsg.headset_connected b =>
      let ev := if b then RouteEvent.headset_plugged
                else RouteEvent.headset_unplugged
      let u := update_route st.router st.call_state st.hasRouteHandler p ev
      ⟨{ st with router := u.router }, pl, u.trace, some (ev, u.wanted)⟩
  | MMsg.bt_device_connected b =>
      let ev := if b then RouteEvent.bt_device_connected
                else RouteEvent.bt_device_disconnected
      let u := update_route st.router st.call_state st.hasRouteHandler p ev
      ⟨{ st with router := u.router }, pl, u.trace, some (ev, u.wanted)⟩
  | MMsg.register_media name s =>
      ⟨{ st with sounds := dict_insert st.sounds name s }, pl, [], none⟩
  | MMsg.deregister_media name =>
      ⟨{ st with sounds := dict_remove st.sounds name }, pl, [], none⟩
  | MMsg.set_intensity i =>
      ⟨{ st with intensity_thres := i }, pl, [], none⟩

/-- State threaded through a run of the audio-thread event loop, together
with the event and wanted route of the most recent `update_route` call. -/
structure RunState where
  mm : MM
  playing : List String
  lastUpd : Option (RouteEvent × Auplay)
deriving Repr

/-- One event-loop iteration on a `RunState`. -/
def run_step (rs : RunState) (pm : Platform × MMsg) : RunState :=
  let r := mqueue_step rs.mm rs.playing pm.1 pm.2
  { mm := r.mm, playing := r.playing,
    lastUpd := match r.upd with
               | none => rs.lastUpd
               | some u => some u }

/-- Processing a whole message sequence (each message paired with the
platform behaviour observed while handling it). -/
def mediamgr_run (rs : RunState) : List (Platform × MMsg) → RunState
  | [] => rs
  | m :: rest => mediamgr_run (run_step rs m) rest

/-- The state `mediamgr_alloc` leaves behind: empty registry, call state
NORMAL, zeroed router flags with `cur_route` set to UNKNOWN, and the
intensity threshold given by MM_INTENSITY_THRES_ALL (the numeric constant
lives in a header outside src/, so it is a parameter here). -/
def init_mm (thres : Int) (hasHandler : Bool) : MM :=
  { sounds := []
    prev_call_state := MMState.normal
    call_state := MMState.normal
    router := { prefer_loudspeaker := false
                bt_device_is_connected := false
                wired_hs_is_connected := false
                cur_route := Auplay.unknown
                route_before_call := Auplay.unknown }
    intensity_thres := thres
    hasRouteHandler := hasHandler }

/-- The initial run state: nothing playing, no route update yet. -/
def init_run (thres : Int) (hasHandler : Bool) : RunState :=
  { mm := init_mm thres hasHandler, playing := [], lastUpd := none }

/-- Invariant tying the most recent route update to the current state: the
recorded wanted route and the current router state come from one
`route_decision` call made at the current call state. -/
def router_inv (rs : RunState) : Prop :=
  ∀ ev w, rs.lastUpd = some (ev, w) →
    ∃ r cur, route_decision r rs.mm.call_state cur ev = (rs.mm.router, w)

/-! Payload types (`enum media_pt`, src/unnamed/part_000 lines 29-39). -/

def MEDIA_PT_DYNAMIC_START : Nat := 96
def MEDIA_PT_DYNAMIC_END : Nat := 127
def MEDIA_PT_AUDIO_START : Nat := 96
def MEDIA_PT_AUDIO_END : Nat := 99
def MEDIA_PT_VIDEO_START : Nat := 100
def MEDIA_PT_VIDEO_END : Nat := 110

/-- `enum media_type` (src/unnamed/part_000 lines 61-67). -/
inductive MediaType
  | media_audio
  | media_video
  | media_video_rtx
deriving DecidableEq, Repr

/-- Modelled from the spec: the SDP negotiator implementation
(mediaflow.c) is not under src/; per the spec, payload types are assigned
from the dynamic range per the codec list, audio using the 96-99 range and
video (including retransmission) the 100-110 range.  The idx-th codec of a
media type receives the idx-th value of the type's range, and assignment
fails once the range is exhausted. -/
def negotiated_pt (t : MediaType) (idx : Nat) : Option Nat :=
  match t with
  | MediaType.media_audio =>
      if MEDIA_PT_AUDIO_START + idx ≤ MEDIA_PT_AUDIO_END then
        some (MEDIA_PT_AUDIO_START + idx)
      else none
  | MediaType.media_video =>
      if MEDIA_PT_VIDEO_START + idx ≤ MEDIA_PT_VIDEO_END then
        some (MEDIA_PT_VIDEO_START + idx)
      else none
  | MediaType.media_video_rtx =>
      if MEDIA_PT_VIDEO_START + idx ≤ MEDIA_PT_VIDEO_END then
        some (MEDIA_PT_VIDEO_START + idx)
      else none

/-! The fake audio device (src/src/audio_io/fake_audiodevice.cpp).
Times are in microseconds; `timeradd`/`timersub` on normalized `timeval`
values are exact integer arithmetic, and the `sleep_time.tv_sec < 0` test
is equivalent to the difference being negative. -/

/-- Externally visible calls of one loop iteration of the fake device. -/
inductive FakeAction
  | recordedDataIsAvailable
  | needMorePlayData
  | nanosleep (nsec : Int)
deriving DecidableEq, Repr

/-- Result of one loop iteration: the advanced deadline and the calls
made. -/
structure FakeIter where
  next_io : Int
  trace : List FakeAction
deriving DecidableEq, Repr

/-- One iteration of `fake_audiodevice::record_thread` (lines 154-180):
advance the deadline by FRAME_LEN_MS, invoke the transport callback when
registered, compute the time to the deadline (clamped at zero when
negative, and truncated to its microsecond field `tv_usec` since the
constructed `timespec` only uses `tv_usec`), and nanosleep for it only
when `realtime_` is set.  `FRAME_LEN_MS` lives in a header outside src/,
so it is a parameter. -/
def record_thread_iter (frame_len_ms : Nat) (realtime : Bool)
    (hasCallback : Bool) (next_io now : Int) : FakeIter :=
  let next := next_io + (frame_len_ms : Int) * 1000
  let cbTrace : List FakeAction :=
    if hasCallback then [FakeAction.recordedDataIsAvailable] else []
  let sleep := next - now
  let usec : Int := if sleep < 0 then 0 else sleep % 1000000
  let sleepTrace : List FakeAction :=
    if realtime then [FakeAction.nanosleep (usec * 1000)] else []
  { next_io := next, trace := cbTrace ++ sleepTrace }

/-- One iteration of `fake_audiodevice::playout_thread` (lines 195-221),
identical to the record loop but invoking `NeedMorePlayData`. -/
def playout_thread_iter (frame_len_ms : Nat) (realtime : Bool)
    (hasCallback : Bool) (next_io now : Int) : FakeIter :=
  let next := next_io + (frame_len_ms : Int) * 1000
  let cbTrace : List FakeAction :=
    if hasCallback then [FakeAction.needMorePlayData] else []
  let sleep := next - now
  let usec : Int := if sleep < 0 then 0 else sleep % 1000000
  let sleepTrace : List FakeAction :=
    if realtime then [FakeAction.nanosleep (usec * 1000)] else []
  { next_io := next, trace := cbTrace ++ sleepTrace }

/-- A well-behaved platform: it reports route `r`, its enable calls
succeed, and an enabled route is observed afterwards. -/
def obedient_platform (r : Auplay) : Platform :=
  { route := r, enableRet := fun _ => 0, routeAfter := fun w => w }

/-! Theorems. -/

/-- C1: for every video-call CALL_START event processed by the audio
router, `update_route` saves the current route into `route_before_call`,
computes the wanted route as headset if a wired headset is connected, else
bluetooth if a BT device is connected, else speaker, and leaves
`prefer_loudspeaker` equal to false after the event (the final value of
the double assignment). -/
theorem video_call_start_route (r : RouterSM) (cs : MMState) (hh : Bool)
    (p : Platform) :
    (update_route r cs hh p RouteEvent.video_call_start).router.route_before_call
        = p.route ∧
    (update_route r cs hh p RouteEvent.video_call_start).router.prefer_loudspeaker
        = false ∧
    (update_route r cs hh p RouteEvent.video_call_start).wanted
        = (if r.wired_hs_is_connected then Auplay.headset
           else if r.bt_device_is_connected then Auplay.bt
           else Auplay.speaker) := by
  refine ⟨?_, ?_, ?_⟩ <;> simp [update_route, route_decision]

/-- C3: a registered sound whose intensity exceeds the session's intensity
threshold is never handed to `mm_platform_play_sound` by the play-media
handler, whatever its priority, mixing flag or the call state. -/
theorem intensity_filter_never_plays (st : MM) (pl : List String)
    (p : Platform) (name : String) (snd : Sound)
    (hfind : dict_lookup st.sounds name = some snd)
    (hint : st.intensity_thres < snd.intensity) :
    PAction.playSound name ∉ (mqueue_step st pl p (MMsg.play_media name)).trace := by
  have hcan : mediamgr_can_play_sound st.call_state st.intensity_thres
      st.sounds pl snd = false := by
    simp [mediamgr_can_play_sound, hint]
  simp [mqueue_step, hfind, hcan]

/-- Witness for C3: a concrete registered sound of intensity 1 against a
threshold of 0 is not played. -/
theorem intensity_filter_never_plays_witness :
    PAction.playSound ("beep") ∉
      (mqueue_step
        { sounds := [(("beep"),
            { mixing := true, incall := true, intensity := 1,
              priority := 5, is_call_media := false })]
          prev_call_state := MMState.normal
          call_state := MMState.normal
          router := { prefer_loudspeaker := false
                      bt_device_is_connected := false
                      wired_hs_is_connected := false
                      cur_route := Auplay.unknown
                      route_before_call := Auplay.unknown }
          intensity_thres := 0
          hasRouteHandler := false }
        [] { route := Auplay.earpiece, enableRet := fun _ => 0,
             routeAfter := fun w => w }
        (MMsg.play_media ("beep"))).trace :=
  intensity_filter_never_plays _ _ _ _
    { mixing := true, incall := true, intensity := 1,
      priority := 5, is_call_media := false }
    (by decide) (by decide)

/-- C7: every payload type assigned by the (spec-modelled) negotiator lies
in the dynamic range, audio types in [96, 99] and video types in
[100, 110]. -/
theorem negotiated_pt_ranges (t : MediaType) (idx pt : Nat)
    (h : negotiated_pt t idx = some pt) :
    (MEDIA_PT_DYNAMIC_START ≤ pt ∧ pt ≤ MEDIA_PT_DYNAMIC_END) ∧
    (t = MediaType.media_audio →
      MEDIA_PT_AUDIO_START ≤ pt ∧ pt ≤ MEDIA_PT_AUDIO_END) ∧
    (t = MediaType.media_video →
      MEDIA_PT_VIDEO_START ≤ pt ∧ pt ≤ MEDIA_PT_VIDEO_END) := by
  cases t <;>
    simp only [negotiated_pt, MEDIA_PT_AUDIO_START, MEDIA_PT_AUDIO_END,
      MEDIA_PT_VIDEO_START, MEDIA_PT_VIDEO_END, MEDIA_PT_DYNAMIC_START,
      MEDIA_PT_DYNAMIC_END] at h ⊢ <;>
    split at h <;> simp_all <;> omega

/-- Witness for C7: the first audio codec gets payload type 96, inside
every advertised range. -/
theorem negotiated_pt_ranges_witness :
    (MEDIA_PT_DYNAMIC_START ≤ 96 ∧ 96 ≤ MEDIA_PT_DYNAMIC_END) ∧
    (MediaType.media_audio = MediaType.media_audio →
      MEDIA_PT_AUDIO_START ≤ 96 ∧ 96 ≤ MEDIA_PT_AUDIO_END) ∧
    (MediaType.media_audio = MediaType.media_video →
      MEDIA_PT_VIDEO_START ≤ 96 ∧ 96 ≤ MEDIA_PT_VIDEO_END) :=
  negotiated_pt_ranges MediaType.media_audio 0 96 (by decide)

/-- C8: each iteration of the fake device's record and playout loops
advances its deadline by exactly FRAME_LEN_MS, invokes the registered
transport callback when one is registered, and (when the remaining time is
nonnegative and below one second, as in periodic operation) sleeps exactly
until the next deadline; with `realtime = false` nanosleep is never
called. -/
theorem fake_device_iteration (flm : Nat) (rt cb : Bool) (next now : Int) :
    ((record_thread_iter flm rt cb next now).next_io
        = next + (flm : Int) * 1000 ∧
     (playout_thread_iter flm rt cb next now).next_io
        = next + (flm : Int) * 1000) ∧
    (cb = true →
      FakeAction.recordedDataIsAvailable ∈
          (record_thread_iter flm rt cb next now).trace ∧
      FakeAction.needMorePlayData ∈
          (playout_thread_iter flm rt cb next now).trace) ∧
    (rt = false → ∀ n : Int,
      FakeAction.nanosleep n ∉ (record_thread_iter flm rt cb next now).trace ∧
      FakeAction.nanosleep n ∉ (playout_thread_iter flm rt cb next now).trace) ∧
    (rt = true → 0 ≤ next + (flm : Int) * 1000 - now →
      next + (flm : Int) * 1000 - now < 1000000 →
      FakeAction.nanosleep ((next + (flm : Int) * 1000 - now) * 1000) ∈
          (record_thread_iter flm rt cb next now).trace ∧
      FakeAction.nanosleep ((next + (flm : Int) * 1000 - now) * 1000) ∈
          (playout_thread_iter flm rt cb next now).trace) := by
  refine ⟨⟨rfl, rfl⟩, ?_, ?_, ?_⟩
  · intro hcb
    constructor <;> cases rt <;> simp [record_thread_iter, playout_thread_iter, hcb]
  · intro hrt n
    constructor <;> cases cb <;> simp [record_thread_iter, playout_thread_iter, hrt]
  · intro hrt h0 h1
    have hmod : (next + (flm : Int) * 1000 - now) % 1000000
        = next + (flm : Int) * 1000 - now := Int.emod_eq_of_lt h0 h1
    have hneg : ¬ (next + (flm : Int) * 1000 - now < 0) := by omega
    constructor <;> cases cb <;>
      simp [record_thread_iter, playout_thread_iter, hrt, hneg, hmod]

/-- Witness for C8: a concrete iteration with FRAME_LEN_MS = 10, a
registered callback, realtime mode, deadline 0 and current time 5000 us.
-/
theorem fake_device_iteration_witness :
    ((record_thread_iter 10 true true 0 5000).next_io
        = 0 + (10 : Int) * 1000 ∧
     (playout_thread_iter 10 true true 0 5000).next_io
        = 0 + (10 : Int) * 1000) ∧
    FakeAction.recordedDataIsAvailable ∈
        (record_thread_iter 10 true true 0 5000).trace ∧
    FakeAction.needMorePlayData ∈
        (playout_thread_iter 10 true true 0 5000).trace ∧
    FakeAction.nanosleep ((0 + (10 : Int) * 1000 - 5000) * 1000) ∈
        (record_thread_iter 10 true true 0 5000).trace ∧
    FakeAction.nanosleep ((0 + (10 : Int) * 1000 - 5000) * 1000) ∈
        (playout_thread_iter 10 true true 0 5000).trace := by
  obtain ⟨h1, h2, _, h4⟩ := fake_device_iteration 10 true true 0 5000
  have h2c := h2 rfl
  have h4c := h4 rfl (by decide) (by decide)
  exact ⟨h1, h2c.1, h2c.2, h4c.1, h4c.2⟩

/-- C9: a HOLD message outside an active call, and a RESUME message
outside HOLD, change nothing: same manager state (call state,
prev_call_state, router, threshold, registry), same playing set, no
platform call, no route update, no mcat callback. -/
theorem hold_resume_frame (st : MM) (pl : List String) (p : Platform) :
    (is_call_state st.call_state = false →
      mqueue_step st pl p (MMsg.call_state MMState.hold)
        = ⟨st, pl, [], none⟩) ∧
    (st.call_state ≠ MMState.hold →
      mqueue_step st pl p (MMsg.call_state MMState.resume)
        = ⟨st, pl, [], none⟩) := by
  constructor
  · intro h
    simp [mqueue_step, h]
  · intro h
    simp [mqueue_step, h]

/-- Witness for C9: from the NORMAL call state, HOLD and RESUME messages
are both no-ops. -/
theorem hold_resume_frame_witness :
    (mqueue_step (init_mm 0 false) [] (obedient_platform Auplay.earpiece)
        (MMsg.call_state MMState.hold)
      = ⟨init_mm 0 false, [], [], none⟩) ∧
    (mqueue_step (init_mm 0 false) [] (obedient_platform Auplay.earpiece)
        (MMsg.call_state MMState.resume)
      = ⟨init_mm 0 false, [], [], none⟩) :=
  ⟨(hold_resume_frame (init_mm 0 false) [] (obedient_platform Auplay.earpiece)).1
      (by decide),
   (hold_resume_frame (init_mm 0 false) [] (obedient_platform Auplay.earpiece)).2
      (by decide)⟩

/-- `update_route` never invokes the mcat-changed handler. -/
theorem update_route_no_mcat (r : RouterSM) (cs : MMState) (hh : Bool)
    (p : Platform) (ev : RouteEvent) (s : MMState) :
    PAction.mcatChanged s ∉ (update_route r cs hh p ev).trace := by
  simp only [update_route, List.mem_append, List.mem_ite_nil_right]
  split_ifs <;> simp

/-- `stop_playing_during_call` only emits stop calls. -/
theorem stop_noncall_playing_no_mcat (d : List (String × Sound))
    (pl : List String) (s : MMState) :
    PAction.mcatChanged s ∉ (stop_noncall_playing d pl).2 := by
  induction d generalizing pl with
  | nil => simp [stop_noncall_playing]
  | cons hd tl ih =>
      by_cases h : hd.2.incall = false ∧ hd.1 ∈ pl
      · simp [stop_noncall_playing, h.1, h.2, ih]
      · rw [stop_noncall_playing]
        split
        · next heq =>
            simp only [List.mem_cons]
            rintro (hc | hc)
            · exact PAction.noConfusion hc
            · exact ih _ hc
        · exact ih pl

/-- `mediamgr_enter_call` never invokes the mcat-changed handler. -/
theorem mediamgr_enter_call_no_mcat (d : List (String × Sound))
    (pl : List String) (s : MMState) :
    PAction.mcatChanged s ∉ (mediamgr_enter_call d pl).2 := by
  simp [mediamgr_enter_call, stop_noncall_playing_no_mcat]

/-- C10: an in-video-call CALL_STATE message updates the call state and
triggers a route update but never fires the mcat-changed handler; in-call,
normal, valid HOLD and valid RESUME messages always fire it with the
message's state. -/
theorem call_state_mcat (st : MM) (pl : List String) (p : Platform) :
    ((mqueue_step st pl p (MMsg.call_state MMState.invideocall)).mm.call_state
        = MMState.invideocall ∧
     (∃ w, (mqueue_step st pl p (MMsg.call_state MMState.invideocall)).upd
        = some (RouteEvent.video_call_start, w)) ∧
     (∀ s, PAction.mcatChanged s ∉
        (mqueue_step st pl p (MMsg.call_state MMState.invideocall)).trace)) ∧
    (PAction.mcatChanged MMState.incall ∈
        (mqueue_step st pl p (MMsg.call_state MMState.incall)).trace) ∧
    (PAction.mcatChanged MMState.normal ∈
        (mqueue_step st pl p (MMsg.call_state MMState.normal)).trace) ∧
    (is_call_state st.call_state = true →
      PAction.mcatChanged MMState.hold ∈
        (mqueue_step st pl p (MMsg.call_state MMState.hold)).trace) ∧
    (st.call_state = MMState.hold →
      PAction.mcatChanged MMState.resume ∈
        (mqueue_step st pl p (MMsg.call_state MMState.resume)).trace) := by
  refine ⟨⟨rfl, ⟨_, rfl⟩, ?_⟩, ?_, ?_, ?_, ?_⟩
  · intro s
    simp [mqueue_step, update_route_no_mcat, mediamgr_enter_call_no_mcat]
  · simp [mqueue_step]
  · simp [mqueue_step]
  · intro h
    simp [mqueue_step, h]
  · intro h
    simp [mqueue_step, h]

/-- Witness for C10: concrete applications in the in-call state (for HOLD)
and the hold state (for RESUME). -/
theorem call_state_mcat_witness :
    (PAction.mcatChanged MMState.hold ∈
      (mqueue_step { init_mm 0 false with call_state := MMState.incall } []
        (obedient_platform Auplay.earpiece)
        (MMsg.call_state MMState.hold)).trace) ∧
    (PAction.mcatChanged MMState.resume ∈
      (mqueue_step { init_mm 0 false with call_state := MMState.hold } []
        (obedient_platform Auplay.earpiece)
        (MMsg.call_state MMState.resume)).trace) ∧
    (PAction.mcatChanged MMState.incall ∈
      (mqueue_step (init_mm 0 false) [] (obedient_platform Auplay.earpiece)
        (MMsg.call_state MMState.incall)).trace) :=
  ⟨(call_state_mcat { init_mm 0 false with call_state := MMState.incall } []
      (obedient_platform Auplay.earpiece)).2.2.2.1 (by decide),
   (call_state_mcat { init_mm 0 false with call_state := MMState.hold } []
      (obedient_platform Auplay.earpiece)).2.2.2.2 (by decide),
   (call_state_mcat (init_mm 0 false) []
      (obedient_platform Auplay.earpiece)).2.1⟩

/-- Counterexample for C6: stopping an already-stopped call-media sound
outside a call is not a no-op — the handler exits platform call mode and
runs a CALL_STOP route update, clearing `prefer_loudspeaker` (and driving
the route to earpiece). -/
theorem stop_media_stopped_not_noop :
    let st : MM :=
      { sounds := [(("ring"),
          { mixing := false, incall := false, intensity := 0,
            priority := 0, is_call_media := true })]
        prev_call_state := MMState.normal
        call_state := MMState.normal
        router := { prefer_loudspeaker := true
                    bt_device_is_connected := false
                    wired_hs_is_connected := false
                    cur_route := Auplay.unknown
                    route_before_call := Auplay.unknown }
        intensity_thres := 0
        hasRouteHandler := false }
    st.router.prefer_loudspeaker = true ∧
    ("ring") ∉ ([] : List String) ∧
    (mqueue_step st [] (obedient_platform Auplay.speaker)
        (MMsg.stop_media ("ring"))).mm.router.prefer_loudspeaker = false ∧
    PAction.exitCall ∈
      (mqueue_step st [] (obedient_platform Auplay.speaker)
        (MMsg.stop_media ("ring"))).trace ∧
    PAction.enableRoute Auplay.earpiece ∈
      (mqueue_step st [] (obedient_platform Auplay.speaker)
        (MMsg.stop_media ("ring"))).trace := by
  decide

/-- C6 (amended): stopping an already-stopped registered sound leaves the
registry, the router state, the call state and the platform call/route
state unchanged, provided the sound is not call media or an audio/video
call is active; the only platform call made is the (idempotent) stop
itself. -/
theorem stop_media_stopped_noop (st : MM) (pl : List String) (p : Platform)
    (name : String) (snd : Sound)
    (hfind : dict_lookup st.sounds name = some snd)
    (hstopped : name ∉ pl)
    (hside : snd.is_call_media = false ∨ is_call_state st.call_state = true) :
    mqueue_step st pl p (MMsg.stop_media name)
      = ⟨st, pl, [PAction.stopSound name], none⟩ := by
  have herase : pl.erase name = pl := List.erase_of_not_mem hstopped
  rcases hside with h | h
  · simp [mqueue_step, hfind, h, herase]
  · simp [mqueue_step, hfind, h, herase]

/-- Witness for C6 (amended): a stopped non-call-media sound is a no-op to
stop. -/
theorem stop_media_stopped_noop_witness :
    mqueue_step
      { sounds := [(("beep2"),
          { mixing := true, incall := true, intensity := 0,
            priority := 0, is_call_media := false })]
        prev_call_state := MMState.normal
        call_state := MMState.normal
        router := { prefer_loudspeaker := false
                    bt_device_is_connected := false
                    wired_hs_is_connected := false
                    cur_route := Auplay.unknown
                    route_before_call := Auplay.unknown }
        intensity_thres := 0
        hasRouteHandler := false }
      [] (obedient_platform Auplay.earpiece) (MMsg.stop_media ("beep2"))
    = ⟨{ sounds := [(("beep2"),
          { mixing := true, incall := true, intensity := 0,
            priority := 0, is_call_media := false })]
         prev_call_state := MMState.normal
         call_state := MMState.normal
         router := { prefer_loudspeaker := false
                     bt_device_is_connected := false
                     wired_hs_is_connected := false
                     cur_route := Auplay.unknown
                     route_before_call := Auplay.unknown }
         intensity_thres := 0
         hasRouteHandler := false },
       [], [PAction.stopSound ("beep2")], none⟩ :=
  stop_media_stopped_noop _ _ _ _
    { mixing := true, incall := true, intensity := 0,
      priority := 0, is_call_media := false }
    (by decide) (by decide) (Or.inl (by decide))

/-- Counterexample for C5: when the platform enable call fails (negative
return), the router does not adopt the wanted route even though the
observed route differs and no call is active — the route-changed handler
receives the platform route instead of the wanted one. -/
theorem route_enable_failure_not_optimistic :
    let p : Platform := { route := Auplay.earpiece,
                          enableRet := fun _ => -1,
                          routeAfter := fun _ => Auplay.earpiece }
    let r0 : RouterSM := { prefer_loudspeaker := false
                           bt_device_is_connected := false
                           wired_hs_is_connected := false
                           cur_route := Auplay.unknown
                           route_before_call := Auplay.unknown }
    let u := update_route r0 MMState.normal true p
               RouteEvent.speaker_enable_request
    u.wanted = Auplay.speaker ∧
    PAction.enableRoute Auplay.speaker ∈ u.trace ∧
    u.observedAfter ≠ u.wanted ∧
    is_call_state MMState.normal = false ∧
    u.finalRoute ≠ u.wanted ∧
    u.trace.getLast? = some (PAction.routeChanged Auplay.earpiece) := by
  decide

/-- C5 (amended): after computing the wanted route W and invoking the
platform enable for W, provided the enable returned a nonnegative value:
if the observed route still differs from W and no audio or video call is
active, the router treats W as the effective route; if a call is active it
records a warning and keeps the observed route.  In all cases the
registered route-changed handler is invoked, last, with the final route. -/
theorem route_verification (r : RouterSM) (cs : MMState) (hh : Bool)
    (p : Platform) (ev : RouteEvent) (u : RouteResult)
    (hu : u = update_route r cs hh p ev) :
    (0 ≤ u.retCode →
      ((u.observedAfter ≠ u.wanted ∧ is_call_state cs = false) →
        u.finalRoute = u.wanted) ∧
      ((u.observedAfter ≠ u.wanted ∧ is_call_state cs = true) →
        u.finalRoute = u.observedAfter ∧ PAction.warnRoute ∈ u.trace)) ∧
    (hh = true →
      u.trace.getLast? = some (PAction.routeChanged u.finalRoute)) := by
  subst hu
  simp only [update_route]
  generalize (route_decision r cs p.route ev).2 = w
  constructor
  · intro hret
    constructor
    · rintro ⟨hne, hcall⟩
      have hmm : ur_mismatch w (ur_obs p w) (ur_ret p w) = true := by
        simp only [ur_mismatch, Bool.and_eq_true, decide_eq_true_eq]
        exact ⟨fun h => hne h.symm, hret⟩
      simp [hmm, hcall]
    · rintro ⟨hne, hcall⟩
      have hmm : ur_mismatch w (ur_obs p w) (ur_ret p w) = true := by
        simp only [ur_mismatch, Bool.and_eq_true, decide_eq_true_eq]
        exact ⟨fun h => hne h.symm, hret⟩
      constructor
      · simp [hmm, hcall]
      · simp [hmm, hcall]
  · intro hhh
    simp only [hhh, if_true]
    rw [List.getLast?_append_cons]
    rfl

/-- Witness for C5 (amended): a successful enable from earpiece to
headset on an obedient platform, no call active, with the handler
registered: the final route is the wanted one and the handler is the last
call. -/
theorem route_verification_witness :
    (((update_route { prefer_loudspeaker := false
                      bt_device_is_connected := false
                      wired_hs_is_connected := false
                      cur_route := Auplay.unknown
                      route_before_call := Auplay.unknown }
        MMState.normal true (obedient_platform Auplay.earpiece)
        RouteEvent.headset_plugged).observedAfter
        ≠ (update_route { prefer_loudspeaker := false
                          bt_device_is_connected := false
                          wired_hs_is_connected := false
                          cur_route := Auplay.unknown
                          route_before_call := Auplay.unknown }
            MMState.normal true (obedient_platform Auplay.earpiece)
            RouteEvent.headset_plugged).wanted
      ∧ is_call_state MMState.normal = false) →
      (update_route { prefer_loudspeaker := false
                      bt_device_is_connected := false
                      wired_hs_is_connected := false
                      cur_route := Auplay.unknown
                      route_before_call := Auplay.unknown }
        MMState.normal true (obedient_platform Auplay.earpiece)
        RouteEvent.headset_plugged).finalRoute
      = (update_route { prefer_loudspeaker := false
                        bt_device_is_connected := false
                        wired_hs_is_connected := false
                        cur_route := Auplay.unknown
                        route_before_call := Auplay.unknown }
          MMState.normal true (obedient_platform Auplay.earpiece)
          RouteEvent.headset_plugged).wanted) ∧
    (update_route { prefer_loudspeaker := false
                    bt_device_is_connected := false
                    wired_hs_is_connected := false
                    cur_route := Auplay.unknown
                    route_before_call := Auplay.unknown }
      MMState.normal true (obedient_platform Auplay.earpiece)
      RouteEvent.headset_plugged).trace.getLast?
    = some (PAction.routeChanged
        (update_route { prefer_loudspeaker := false
                        bt_device_is_connected := false
                        wired_hs_is_connected := false
                        cur_route := Auplay.unknown
                        route_before_call := Auplay.unknown }
          MMState.normal true (obedient_platform Auplay.earpiece)
          RouteEvent.headset_plugged).finalRoute) :=
  ⟨((route_verification _ MMState.normal true
      (obedient_platform Auplay.earpiece) RouteEvent.headset_plugged _
      rfl).1 (by decide)).1,
   (route_verification _ MMState.normal true
      (obedient_platform Auplay.earpiece) RouteEvent.headset_plugged _
      rfl).2 rfl⟩

/-- `dict_apply(sounds, stop_play, NULL)` emits a stop call for every
registered sound the platform reports as playing. -/
theorem stop_all_playing_stops (d : List (String × Sound)) (pl : List String)
    (q : String) (s2 : Sound) (hq : (q, s2) ∈ d) (hpl : q ∈ pl) :
    PAction.stopSound q ∈ (stop_all_playing d pl).2 := by
  induction d generalizing pl with
  | nil => cases hq
  | cons hd tl ih =>
      rcases List.mem_cons.mp hq with heq | htl
      · have hq1 : q = hd.1 := by rw [← heq]
        subst hq1
        rw [stop_all_playing]
        simp only [hpl, if_true]
        exact List.mem_cons_self _ _
      · rw [stop_all_playing]
        by_cases hmem : hd.1 ∈ pl
        · simp only [hmem, if_true]
          by_cases hqe : q = hd.1
          · subst hqe
            exact List.mem_cons_self _ _
          · exact List.mem_cons_of_mem _
              (ih (pl.erase hd.1) htl ((List.mem_erase_of_ne hqe).mpr hpl))
        · simp only [hmem, if_false]
          exact ih pl htl hpl

/-- C4: when the play-media handler actually plays a registered sound of
positive priority, it first stops every registered sound the platform
reports as playing, and emits the play call last. -/
theorem priority_preempts (st : MM) (pl : List String) (p : Platform)
    (name : String) (snd : Sound)
    (hfind : dict_lookup st.sounds name = some snd)
    (hpri : 0 < snd.priority)
    (hcan : mediamgr_can_play_sound st.call_state st.intensity_thres
        st.sounds pl snd = true) :
    (∃ mid, (mqueue_step st pl p (MMsg.play_media name)).trace
        = ((stop_all_playing st.sounds pl).2 ++ mid)
          ++ [PAction.playSound name]) ∧
    (∀ q s2, (q, s2) ∈ st.sounds → q ∈ pl →
      PAction.stopSound q ∈ (stop_all_playing st.sounds pl).2) := by
  constructor
  · by_cases hcm : (snd.is_call_media && !(is_call_state st.call_state)) = true
    · refine ⟨PAction.enterCall ::
        (update_route st.router st.call_state st.hasRouteHandler p
          RouteEvent.call_start).trace, ?_⟩
      simp [mqueue_step, hfind, hcan, hpri, hcm]
    · refine ⟨[], ?_⟩
      simp [mqueue_step, hfind, hcan, hpri, hcm]
  · intro q s2 hq hpl
    exact stop_all_playing_stops st.sounds pl q s2 hq hpl

/-- Witness for C4: with "ringtone" (priority 1) registered alongside a
playing "notif" (priority 0), playing "ringtone" stops "notif" first and
plays "ringtone" last. -/
theorem priority_preempts_witness :
    let st : MM :=
      { sounds := [(("ringtone"),
          { mixing := false, incall := true, intensity := 0,
            priority := 1, is_call_media := false }),
          (("notif"),
          { mixing := true, incall := true, intensity := 0,
            priority := 0, is_call_media := false })]
        prev_call_state := MMState.normal
        call_state := MMState.normal
        router := { prefer_loudspeaker := false
                    bt_device_is_connected := false
                    wired_hs_is_connected := false
                    cur_route := Auplay.unknown
                    route_before_call := Auplay.unknown }
        intensity_thres := 0
        hasRouteHandler := false }
    (∃ mid, (mqueue_step st [("notif")] (obedient_platform Auplay.earpiece)
        (MMsg.play_media ("ringtone"))).trace
        = ((stop_all_playing st.sounds [("notif")]).2 ++ mid)
          ++ [PAction.playSound ("ringtone")]) ∧
    (∀ q s2, (q, s2) ∈ st.sounds → q ∈ [("notif")] →
      PAction.stopSound q ∈ (stop_all_playing st.sounds [("notif")]).2) :=
  priority_preempts _ _ _ _
    { mixing := false, incall := true, intensity := 0,
      priority := 1, is_call_media := false }
    (by decide) (by decide) (by decide)

/-- For every route event other than BT-connected, call-stop and
video-call-stop: when the router state left behind has a wired headset
connected and no loudspeaker preference, the wanted route computed by the
event is headset. -/
theorem route_decision_headset (r : RouterSM) (cs : MMState) (cur : Auplay)
    (ev : RouteEvent)
    (h1 : ev ≠ RouteEvent.bt_device_connected)
    (h2 : ev ≠ RouteEvent.call_stop)
    (h3 : ev ≠ RouteEvent.video_call_stop)
    (hw : (route_decision r cs cur ev).1.wired_hs_is_connected = true)
    (hp : (route_decision r cs cur ev).1.prefer_loudspeaker = false) :
    (route_decision r cs cur ev).2 = Auplay.headset := by
  cases ev with
  | headset_plugged => rfl
  | headset_unplugged =>
      exfalso
      simp [route_decision] at hw
  | bt_device_connected => exact absurd rfl h1
  | bt_device_disconnected =>
      simp only [route_decision] at hw ⊢
      simp [hw]
  | speaker_enable_request =>
      exfalso
      simp [route_decision] at hp
  | speaker_disable_request =>
      simp only [route_decision] at hw ⊢
      simp [hw]
  | call_start =>
      simp only [route_decision] at hw ⊢
      simp [hw]
  | video_call_start =>
      simp only [route_decision] at hw ⊢
      simp [hw]
  | call_stop => exact absurd rfl h2
  | video_call_stop => exact absurd rfl h3

/-- Each message either leaves the router and the call state untouched
without recording a route update, or records a route update whose wanted
route and router state come from a `route_decision` call made at the
message's resulting call state. -/
theorem mqueue_step_upd (st : MM) (pl : List String) (p : Platform)
    (m : MMsg) :
    ((mqueue_step st pl p m).upd = none ∧
      (mqueue_step st pl p m).mm.router = st.router ∧
      (mqueue_step st pl p m).mm.call_state = st.call_state) ∨
    (∃ ev w, (mqueue_step st pl p m).upd = some (ev, w) ∧
      route_decision st.router (mqueue_step st pl p m).mm.call_state
          p.route ev
        = ((mqueue_step st pl p m).mm.router, w)) := by
  cases m with
  | play_media name =>
      simp only [mqueue_step]
      cases dict_lookup st.sounds name with
      | none => exact Or.inl ⟨rfl, rfl, rfl⟩
      | some snd =>
          dsimp only
          by_cases hcan : mediamgr_can_play_sound st.call_state
              st.intensity_thres st.sounds pl snd = true
          · rw [if_pos hcan]
            by_cases hcm : (snd.is_call_media
                && !(is_call_state st.call_state)) = true
            · rw [if_pos hcm]
              exact Or.inr ⟨RouteEvent.call_start, _, rfl, rfl⟩
            · rw [if_neg hcm]
              exact Or.inl ⟨rfl, rfl, rfl⟩
          · rw [if_neg hcan]
            exact Or.inl ⟨rfl, rfl, rfl⟩
  | pause_media name =>
      simp only [mqueue_step]
      cases dict_lookup st.sounds name with
      | none => exact Or.inl ⟨rfl, rfl, rfl⟩
      | some snd => exact Or.inl ⟨rfl, rfl, rfl⟩
  | stop_media name =>
      simp only [mqueue_step]
      cases dict_lookup st.sounds name with
      | none => exact Or.inl ⟨rfl, rfl, rfl⟩
      | some snd =>
          dsimp only
          by_cases hcm : (snd.is_call_media
              && !(is_call_state st.call_state)) = true
          · rw [if_pos hcm]
            exact Or.inr ⟨RouteEvent.call_stop, _, rfl, rfl⟩
          · rw [if_neg hcm]
            exact Or.inl ⟨rfl, rfl, rfl⟩
  | call_state s =>
      cases s with
      | normal => exact Or.inr ⟨RouteEvent.call_stop, _, rfl, rfl⟩
      | incall => exact Or.inr ⟨RouteEvent.call_start, _, rfl, rfl⟩
      | invideocall => exact Or.inr ⟨RouteEvent.video_call_start, _, rfl, rfl⟩
      | hold =>
          simp only [mqueue_step]
          by_cases hc : is_call_state st.call_state = true
          · rw [if_pos hc]
            exact Or.inr ⟨RouteEvent.call_stop, _, rfl, rfl⟩
          · rw [if_neg hc]
            exact Or.inl ⟨rfl, rfl, rfl⟩
      | resume =>
          simp only [mqueue_step]
          by_cases hc : st.call_state = MMState.hold
          · rw [if_pos hc]
            exact Or.inr ⟨RouteEvent.call_start, _, rfl, rfl⟩
          · rw [if_neg hc]
            exact Or.inl ⟨rfl, rfl, rfl⟩
  | enable_speaker b =>
      cases b with
      | false => exact Or.inr ⟨RouteEvent.speaker_disable_request, _, rfl, rfl⟩
      | true => exact Or.inr ⟨RouteEvent.speaker_enable_request, _, rfl, rfl⟩
  | headset_connected b =>
      cases b with
      | false => exact Or.inr ⟨RouteEvent.headset_unplugged, _, rfl, rfl⟩
      | true => exact Or.inr ⟨RouteEvent.headset_plugged, _, rfl, rfl⟩
  | bt_device_connected b =>
      cases b with
      | false => exact Or.inr ⟨RouteEvent.bt_device_disconnected, _, rfl, rfl⟩
      | true => exact Or.inr ⟨RouteEvent.bt_device_connected, _, rfl, rfl⟩
  | register_media name s => exact Or.inl ⟨rfl, rfl, rfl⟩
  | deregister_media name => exact Or.inl ⟨rfl, rfl, rfl⟩
  | set_intensity i => exact Or.inl ⟨rfl, rfl, rfl⟩

/-- One event-loop step preserves the router invariant. -/
theorem run_step_inv (rs : RunState) (pm : Platform × MMsg)
    (h : router_inv rs) : router_inv (run_step rs pm) := by
  obtain ⟨p, m⟩ := pm
  rcases mqueue_step_upd rs.mm rs.playing p m with
    ⟨hu, hr, hc⟩ | ⟨ev, w, hu, hd⟩
  · intro ev2 w2 hw
    have hl : (run_step rs (p, m)).lastUpd = rs.lastUpd := by
      simp [run_step, hu]
    rw [hl] at hw
    obtain ⟨r, cur, hrc⟩ := h ev2 w2 hw
    refine ⟨r, cur, ?_⟩
    have hmm : (run_step rs (p, m)).mm = (mqueue_step rs.mm rs.playing p m).mm :=
      rfl
    rw [hmm, hc, hr]
    exact hrc
  · intro ev2 w2 hw
    have hl : (run_step rs (p, m)).lastUpd = some (ev, w) := by
      simp [run_step, hu]
    rw [hl] at hw
    injection hw with hw2
    injection hw2 with he hwq
    subst he
    subst hwq
    exact ⟨rs.mm.router, p.route, hd⟩

/-- The router invariant holds along every run from an invariant state. -/
theorem mediamgr_run_inv (msgs : List (Platform × MMsg)) (rs : RunState)
    (h : router_inv rs) : router_inv (mediamgr_run rs msgs) := by
  induction msgs generalizing rs with
  | nil => exact h
  | cons hd tl ih => exact ih (run_step rs hd) (run_step_inv rs hd h)

/-- Counterexample for C2: plug a wired headset, then end the call state
(NORMAL).  The final state has wiredHS = true, preferLoud = false and no
active call, yet the route update computed by the router on the last event
wanted earpiece, not headset. -/
theorem router_headset_invariant_fails :
    (mediamgr_run (init_run 0 false)
      [(obedient_platform Auplay.earpiece, MMsg.headset_connected true),
       (obedient_platform Auplay.headset,
        MMsg.call_state MMState.normal)]).mm.router.wired_hs_is_connected
      = true ∧
    (mediamgr_run (init_run 0 false)
      [(obedient_platform Auplay.earpiece, MMsg.headset_connected true),
       (obedient_platform Auplay.headset,
        MMsg.call_state MMState.normal)]).mm.router.prefer_loudspeaker
      = false ∧
    is_call_state (mediamgr_run (init_run 0 false)
      [(obedient_platform Auplay.earpiece, MMsg.headset_connected true),
       (obedient_platform Auplay.headset,
        MMsg.call_state MMState.normal)]).mm.call_state = false ∧
    (mediamgr_run (init_run 0 false)
      [(obedient_platform Auplay.earpiece, MMsg.headset_connected true),
       (obedient_platform Auplay.headset,
        MMsg.call_state MMState.normal)]).lastUpd
      = some (RouteEvent.call_stop, Auplay.earpiece) ∧
    (mediamgr_run (init_run 0 false)
      [(obedient_platform Auplay.earpiece, MMsg.headset_connected true),
       (obedient_platform Auplay.headset,
        MMsg.call_state MMState.normal)]).lastUpd
      ≠ some (RouteEvent.call_stop, Auplay.headset) := by
  refine ⟨rfl, rfl, rfl, rfl, ?_⟩
  decide

/-- C2 (amended): after any event sequence from the initial state, if the
resulting state has wiredHS = true, preferLoud = false and no active call,
and the last route-updating event was not BT-connected, call-stop or
video-call-stop, then the wanted route that event computed is headset. -/
theorem router_headset_invariant (msgs : List (Platform × MMsg))
    (thres : Int) (hh : Bool) (ev : RouteEvent) (w : Auplay)
    (hlast : (mediamgr_run (init_run thres hh) msgs).lastUpd = some (ev, w))
    (hwired :
      (mediamgr_run (init_run thres hh) msgs).mm.router.wired_hs_is_connected
        = true)
    (hpref :
      (mediamgr_run (init_run thres hh) msgs).mm.router.prefer_loudspeaker
        = false)
    (hcall :
      is_call_state (mediamgr_run (init_run thres hh) msgs).mm.call_state
        = false)
    (h1 : ev ≠ RouteEvent.bt_device_connected)
    (h2 : ev ≠ RouteEvent.call_stop)
    (h3 : ev ≠ RouteEvent.video_call_stop) :
    w = Auplay.headset := by
  have hinit : router_inv (init_run thres hh) := by
    intro ev0 w0 hw0
    cases hw0
  obtain ⟨r, cur, hrc⟩ :=
    mediamgr_run_inv msgs (init_run thres hh) hinit ev w hlast
  have hfst : (route_decision r
      (mediamgr_run (init_run thres hh) msgs).mm.call_state cur ev).1
      = (mediamgr_run (init_run thres hh) msgs).mm.router :=
    congrArg Prod.fst hrc
  have hsnd : (route_decision r
      (mediamgr_run (init_run thres hh) msgs).mm.call_state cur ev).2 = w :=
    congrArg Prod.snd hrc
  rw [← hsnd]
  exact route_decision_headset r _ cur ev h1 h2 h3
    (by rw [hfst]; exact hwired) (by rw [hfst]; exact hpref)

/-- Witness for C2 (amended): after just plugging a wired headset, the
flags hold, the last event is headset-plugged, and the wanted route is
headset. -/
theorem router_headset_invariant_witness :
    (mediamgr_run (init_run 0 false)
      [(obedient_platform Auplay.earpiece, MMsg.headset_connected true)]).lastUpd
      = some (RouteEvent.headset_plugged, Auplay.headset) ∧
    (mediamgr_run (init_run 0 false)
      [(obedient_platform Auplay.earpiece,
        MMsg.headset_connected true)]).mm.router.wired_hs_is_connected
      = true ∧
    Auplay.headset = Auplay.headset :=
  ⟨by decide, by decide,
   router_headset_invariant
     [(obedient_platform Auplay.earpiece, MMsg.headset_connected true)]
     0 false RouteEvent.headset_plugged Auplay.headset
     (by decide) (by decide) (by decide) (by decide)
     (by decide) (by decide) (by decide)⟩

end Avs
